import Mathlib

/-!
# Covey.Town town controller — verification development

Shallow embedding of the server-side session core of the Covey.Town
multiplayer platform (town controller, conversation areas, sessions,
event fan-out, and the conversation-area REST handler).

The repository ships the test suites (`CoveyTownController.test.ts`,
`CoveyTownConversationAPI.test.ts`, `TestUtils.ts`); the production
modules themselves are not part of the source tree, so the operations
below are modelled from the specification, with the in-repository tests
taken as the authority on behaviour wherever they pin it down
(in particular, the tests establish that a client-asserted
`conversationLabel` naming an existing area wins over pure geometry).

Coordinates are modelled as rationals; event fan-out is modelled by
returning the ordered list of events a mutation emits (every subscribed
listener observes exactly that list, in that order); the token broker is
modelled as an explicit function argument, and the list of calls made to
it is returned alongside the result.
-/

namespace Covey

/-- Axis-aligned rectangle; `(x, y)` is the center, extents are
half-`width` / half-`height` (from `TownsServiceClient.BoundingBox`). -/
structure BoundingBox where
  x : ℚ
  y : ℚ
  width : ℚ
  height : ℚ
deriving DecidableEq, Repr

/-- Absolute value on the rationals, spelled executably (the JavaScript
source uses `Math.abs`). -/
def ratAbs (q : ℚ) : ℚ := if q < 0 then -q else q

/-- Modelled from the spec: `contains(box, x, y)` — a point is strictly
inside a box iff both coordinate offsets from the center are strictly
below the half-extents; points on the edge are not inside. -/
def boxContains (b : BoundingBox) (px py : ℚ) : Bool :=
  decide (ratAbs (px - b.x) < b.width / 2 ∧ ratAbs (py - b.y) < b.height / 2)

/-- Modelled from the spec: `overlaps(box1, box2)` — open interiors
intersect; boxes sharing only an edge are adjacent, not overlapping. -/
def boxOverlaps (b1 b2 : BoundingBox) : Bool :=
  decide (ratAbs (b1.x - b2.x) < (b1.width + b2.width) / 2 ∧
          ratAbs (b1.y - b2.y) < (b1.height + b2.height) / 2)

/-- Location value type (from `CoveyTypes.UserLocation`); the rotation
is one of the four direction strings. -/
structure UserLocation where
  x : ℚ
  y : ℚ
  rotation : String
  moving : Bool
  conversationLabel : Option String := none
deriving DecidableEq, Repr

/-- Conversation area (from `TownsServiceClient.ServerConversationArea`). -/
structure ServerConversationArea where
  label : String
  topic : String
  occupantsByID : List String
  boundingBox : BoundingBox
deriving DecidableEq, Repr

/-- A player; the active conversation area is kept as a weak handle (the
area's unique label), `none` when the player is in no area. -/
structure Player where
  id : String
  userName : String
  location : UserLocation
  activeConversationArea : Option String := none
deriving DecidableEq, Repr

/-- A session: opaque token bound to a (player, town) pair, carrying the
media token the broker returned for it. -/
structure PlayerSession where
  sessionToken : String
  playerID : String
  videoToken : String
deriving DecidableEq, Repr

/-- The five player/area lifecycle events plus town destruction, each
carrying the snapshot the listeners receive. -/
inductive TownEvent where
  | playerJoined (p : Player)
  | playerMoved (p : Player)
  | playerDisconnected (p : Player)
  | conversationAreaUpdated (a : ServerConversationArea)
  | conversationAreaDestroyed (a : ServerConversationArea)
  | townDestroyed
deriving DecidableEq, Repr

/-- Authoritative per-town state (from `CoveyTownController`). -/
structure TownState where
  coveyTownID : String
  friendlyName : String
  players : List Player
  sessions : List PlayerSession
  conversationAreas : List ServerConversationArea
deriving DecidableEq, Repr

/-- Constant-time session lookup by token. -/
def getSessionByToken (s : TownState) (token : String) : Option PlayerSession :=
  s.sessions.find? (fun t => t.sessionToken == token)

/-- Result of `addPlayer`: the committed state, the session handed back
to the caller, the fanned-out events, and the (townID, playerID)
arguments of every call made to the token broker. -/
structure AddPlayerResult where
  state : TownState
  session : PlayerSession
  events : List TownEvent
  brokerCalls : List (String × String)
deriving Repr

/-- Modelled from the spec: `addPlayer(player)` — request a media token
from the broker with `(coveyTownID, player.id)`, bind it inside the new
session, insert player and session, emit `playerJoined(player)`, return
the session. `freshToken` stands for the freshly generated opaque
session token. -/
def addPlayer (s : TownState) (p : Player) (freshToken : String)
    (broker : String → String → String) : AddPlayerResult :=
  let videoToken := broker s.coveyTownID p.id
  let session : PlayerSession :=
    { sessionToken := freshToken, playerID := p.id, videoToken := videoToken }
  let state :=
    { s with players := s.players ++ [p], sessions := s.sessions ++ [session] }
  { state := state, session := session,
    events := [TownEvent.playerJoined p],
    brokerCalls := [(s.coveyTownID, p.id)] }

/-- Validity of a new conversation area against the current area list:
non-empty label not already taken, non-empty topic, and a bounding box
overlapping no existing area's box. -/
def isValidArea (s : TownState) (area : ServerConversationArea) : Bool :=
  area.label != "" &&
  s.conversationAreas.all (fun a => a.label != area.label) &&
  area.topic != "" &&
  s.conversationAreas.all (fun a => !(boxOverlaps a.boundingBox area.boundingBox))

/-- Result of `addConversationArea`: new state, the boolean returned to
the caller, and the fanned-out events. -/
structure AddAreaResult where
  state : TownState
  ok : Bool
  events : List TownEvent
deriving Repr

/-- Modelled from the spec: `addConversationArea(area)` — accept iff the
label is non-empty and fresh, the topic is non-empty, and the box
overlaps no existing box (adjacency allowed).  On acceptance the area is
inserted with exactly the players whose location is strictly inside the
box and whose active area is none as occupants (in player-set order),
those players' active area is set to the new area, and a single
`conversationAreaUpdated` fires.  On rejection: no state change, no
event, return `false`. -/
def addConversationArea (s : TownState) (area : ServerConversationArea) :
    AddAreaResult :=
  if isValidArea s area then
    let admitted := s.players.filter (fun p =>
      boxContains area.boundingBox p.location.x p.location.y &&
      p.activeConversationArea == none)
    let newArea := { area with occupantsByID := admitted.map Player.id }
    let players := s.players.map (fun p =>
      if boxContains area.boundingBox p.location.x p.location.y &&
         p.activeConversationArea == none
      then { p with activeConversationArea := some area.label } else p)
    let state :=
      { s with players := players,
               conversationAreas := s.conversationAreas ++ [newArea] }
    { state := state, ok := true,
      events := [TownEvent.conversationAreaUpdated newArea] }
  else
    { state := s, ok := false, events := [] }

/-- Step 1 of `updatePlayerLocation` — determine the intended next area.

Modelled from the spec and the tests: the client-asserted
`conversationLabel` wins whenever it names an existing area, regardless
of the new `(x, y)` (the test suite moves a player to `(25, 25)` with
the label of an area centered at `(10, 10)` and expects admission); a
missing label, or a label naming no area, yields `none`. -/
def nextLabel (areas : List ServerConversationArea) (loc : UserLocation) :
    Option String :=
  match loc.conversationLabel with
  | none => none
  | some lbl => if areas.any (fun a => a.label == lbl) then some lbl else none

/-- Append `pid` to `a`'s occupant list when `a` carries label `lbl`;
leave other areas untouched. -/
def addToArea (lbl pid : String) (a : ServerConversationArea) :
    ServerConversationArea :=
  if a.label == lbl then { a with occupantsByID := a.occupantsByID ++ [pid] }
  else a

/-- Remove `pid` from `a`'s occupant list when `a` carries label `lbl`;
leave other areas untouched. -/
def removeFromArea (lbl pid : String) (a : ServerConversationArea) :
    ServerConversationArea :=
  if a.label == lbl then
    { a with occupantsByID := a.occupantsByID.filter (fun o => o != pid) }
  else a

/-- Append `pid` to the occupant list of every area labelled `lbl`
(labels are unique per town, so at most one), emitting one
`conversationAreaUpdated` with the updated area's snapshot. -/
def enterArea (areas : List ServerConversationArea) (lbl : String)
    (pid : String) : List ServerConversationArea × List TownEvent :=
  let areas1 := areas.map (addToArea lbl pid)
  match areas1.find? (fun a => a.label == lbl) with
  | none => (areas1, [])
  | some a => (areas1, [TownEvent.conversationAreaUpdated a])

/-- Remove `pid` from the occupant list of the area labelled `lbl`; if
the area is now empty it is removed from the list and
`conversationAreaDestroyed` fires, otherwise `conversationAreaUpdated`
fires. -/
def leaveArea (areas : List ServerConversationArea) (lbl : String)
    (pid : String) : List ServerConversationArea × List TownEvent :=
  let areas1 := areas.map (removeFromArea lbl pid)
  match areas1.find? (fun a => a.label == lbl) with
  | none => (areas1, [])
  | some a =>
    if a.occupantsByID.isEmpty then
      (areas1.filter (fun b => b.label != lbl),
       [TownEvent.conversationAreaDestroyed a])
    else (areas1, [TownEvent.conversationAreaUpdated a])

/-- Result of `updatePlayerLocation` on one player: the player's new
record, the new area list, and the fanned-out events in order. -/
structure UpdateResult where
  player : Player
  areas : List ServerConversationArea
  events : List TownEvent
deriving Repr

/-- Modelled from the spec: `updatePlayerLocation(player, newLocation)`
— determine the intended next area (`nextLabel`), overwrite the
player's location unconditionally, reconcile membership per the
prev/next table (source area first loses the occupant, destination
gains it; destination event precedes source event), and always emit
exactly one `playerMoved` last. -/
def updatePlayerLocation (areas : List ServerConversationArea) (p : Player)
    (loc : UserLocation) : UpdateResult :=
  let next := nextLabel areas loc
  let p1 := { p with location := loc }
  match p.activeConversationArea, next with
  | none, none =>
    { player := p1, areas := areas, events := [TownEvent.playerMoved p1] }
  | none, some b =>
    let r := enterArea areas b p.id
    let p2 := { p1 with activeConversationArea := some b }
    { player := p2, areas := r.1, events := r.2 ++ [TownEvent.playerMoved p2] }
  | some a, none =>
    let r := leaveArea areas a p.id
    let p2 := { p1 with activeConversationArea := none }
    { player := p2, areas := r.1, events := r.2 ++ [TownEvent.playerMoved p2] }
  | some a, some b =>
    if a == b then
      { player := p1, areas := areas, events := [TownEvent.playerMoved p1] }
    else
      let rEnter := enterArea areas b p.id
      let rLeave := leaveArea rEnter.1 a p.id
      let p2 := { p1 with activeConversationArea := some b }
      { player := p2, areas := rLeave.1,
        events := rEnter.2 ++ rLeave.2 ++ [TownEvent.playerMoved p2] }

/-- State-level wrapper of `updatePlayerLocation`: the player record in
the town's player set is replaced by its updated version. -/
def updatePlayerLocationS (s : TownState) (pid : String) (loc : UserLocation) :
    TownState × List TownEvent :=
  match s.players.find? (fun p => p.id == pid) with
  | none => (s, [])
  | some p =>
    let r := updatePlayerLocation s.conversationAreas p loc
    ({ s with players := s.players.map (fun q => if q.id == pid then r.player else q),
              conversationAreas := r.areas },
     r.events)

/-- Modelled from the spec: `destroySession(session)` — if the session
is not known, return silently with no state change and no event;
otherwise evict the session's player from any active area (the "player
leaves" half of the location pipeline, with the area event it implies),
remove session and player, and emit `playerDisconnected` last. -/
def destroySession (s : TownState) (session : PlayerSession) :
    TownState × List TownEvent :=
  if s.sessions.any (fun t => t.sessionToken == session.sessionToken) then
    match s.players.find? (fun p => p.id == session.playerID) with
    | none =>
      ({ s with sessions :=
          s.sessions.filter (fun t => t.sessionToken != session.sessionToken) },
       [])
    | some p =>
      let r := match p.activeConversationArea with
        | none => (s.conversationAreas, ([] : List TownEvent))
        | some lbl => leaveArea s.conversationAreas lbl p.id
      let pFinal := { p with activeConversationArea := none }
      ({ s with
          players := s.players.filter (fun q => q.id != p.id),
          sessions := s.sessions.filter (fun t => t.sessionToken != session.sessionToken),
          conversationAreas := r.1 },
       r.2 ++ [TownEvent.playerDisconnected pFinal])
  else (s, [])

/-- Modelled from the spec: `disconnectAllPlayers()` — emit
`townDestroyed` exactly once and drop all players, sessions and
areas. -/
def disconnectAllPlayers (s : TownState) : TownState × List TownEvent :=
  ({ s with players := [], sessions := [], conversationAreas := [] },
   [TownEvent.townDestroyed])

/-- Request body of `POST /conversationAreas`. -/
structure ConversationAreaCreateRequest where
  coveyTownID : String
  sessionToken : String
  conversationArea : ServerConversationArea
deriving Repr

/-- REST response envelope (the `response` payload of this endpoint is
always the empty object, so only `isOK` and `message` are carried). -/
structure ResponseEnvelope where
  isOK : Bool
  message : Option String
deriving DecidableEq, Repr

/-- The failure message of conversation-area creation. -/
def conversationAreaFailureMessage (a : ServerConversationArea) : String :=
  "Unable to create conversation area " ++ a.label ++ " with topic " ++ a.topic

/-- Result of the create handler: the town state after the call (`none`
when the town lookup failed), the envelope, and whether
`addConversationArea` was invoked on the controller. -/
structure HandlerResult where
  town : Option TownState
  envelope : ResponseEnvelope
  addCalled : Bool
deriving Repr

/-- Modelled from the spec: `conversationAreaCreateHandler(request)` —
resolve the controller for the target town and the session for the
request's token; on either miss return the failure envelope without
touching the controller; otherwise delegate to `addConversationArea`,
returning `isOK = true` with no message on success and the failure
envelope on rejection. `town?` is the result of the registry lookup for
`request.coveyTownID`. -/
def conversationAreaCreateHandler (townQ : Option TownState)
    (req : ConversationAreaCreateRequest) : HandlerResult :=
  match townQ with
  | none =>
    { town := none,
      envelope := { isOK := false,
                    message := some (conversationAreaFailureMessage req.conversationArea) },
      addCalled := false }
  | some s =>
    match getSessionByToken s req.sessionToken with
    | none =>
      { town := some s,
        envelope := { isOK := false,
                      message := some (conversationAreaFailureMessage req.conversationArea) },
        addCalled := false }
    | some _ =>
      let r := addConversationArea s req.conversationArea
      if r.ok then
        { town := some r.state, envelope := { isOK := true, message := none },
          addCalled := true }
      else
        { town := some r.state,
          envelope := { isOK := false,
                        message := some (conversationAreaFailureMessage req.conversationArea) },
          addCalled := true }

/-- The players admitted into a freshly created area: strictly inside
the new box and currently in no area. -/
def admittedPlayers (s : TownState) (area : ServerConversationArea) :
    List Player :=
  s.players.filter (fun p =>
    boxContains area.boundingBox p.location.x p.location.y &&
    p.activeConversationArea == none)

/-! ## Concrete inputs used by witnesses and counterexamples -/

/-- A town with no players, sessions or areas. -/
def town0 : TownState :=
  { coveyTownID := "t", friendlyName := "f", players := [], sessions := [],
    conversationAreas := [] }

/-- A 5×5 box centered at `(5, 5)`. -/
def box5 : BoundingBox := { x := 5, y := 5, width := 5, height := 5 }

/-- A valid concrete area over `box5`. -/
def areaA : ServerConversationArea :=
  { label := "A", topic := "T", occupantsByID := [], boundingBox := box5 }

/-- A concrete area with an empty topic (invalid). -/
def areaATopicless : ServerConversationArea :=
  { label := "A", topic := "", occupantsByID := [], boundingBox := box5 }

/-- An area overlapping `box5` (centered at `(2, 2)`). -/
def areaB22 : ServerConversationArea :=
  { label := "B", topic := "T", occupantsByID := [],
    boundingBox := { x := 2, y := 2, width := 5, height := 5 } }

/-- A player standing at the center of `box5`, in no area. -/
def playerIn : Player :=
  { id := "in", userName := "u1",
    location := { x := 5, y := 5, rotation := "front", moving := false,
                  conversationLabel := none },
    activeConversationArea := none }

/-- A player standing on the right edge of `box5`, in no area. -/
def playerEdge : Player :=
  { id := "edge", userName := "u2",
    location := { x := 15/2, y := 6, rotation := "front", moving := false,
                  conversationLabel := none },
    activeConversationArea := none }

/-- A town holding the interior player and the edge player. -/
def townC5 : TownState := { town0 with players := [playerIn, playerEdge] }

/-- A concrete creation request for `areaA` with token "tok". -/
def reqA : ConversationAreaCreateRequest :=
  { coveyTownID := "t", sessionToken := "tok", conversationArea := areaA }

/-- A concrete creation request for the overlapping `areaB22`. -/
def reqB : ConversationAreaCreateRequest :=
  { coveyTownID := "t", sessionToken := "tok", conversationArea := areaB22 }

/-- A concrete session for player "p" with token "tok". -/
def sessTok : PlayerSession :=
  { sessionToken := "tok", playerID := "p", videoToken := "v" }

/-- A town where session "tok" resolves and `areaA` (occupied by "p")
already exists. -/
def townC8 : TownState :=
  { town0 with sessions := [sessTok],
               conversationAreas := [{ areaA with occupantsByID := ["p"] }] }

/-- A concrete player at the origin, used for duplicate-join runs. -/
def player0 : Player :=
  { id := "p1", userName := "u",
    location := { x := 0, y := 0, rotation := "front", moving := false,
                  conversationLabel := none },
    activeConversationArea := none }

/-- A 5×5 box centered at `(10, 10)` (the box of the movement tests). -/
def box10 : BoundingBox := { x := 10, y := 10, width := 5, height := 5 }

/-- Area "A" over `box10`, occupied by "p1" (the state reached in the
movement tests after the player at `(10, 10)` is admitted at area
creation). -/
def areaA10 : ServerConversationArea :=
  { label := "A", topic := "T", occupantsByID := ["p1"], boundingBox := box10 }

/-- The player "p1" standing at `(10, 10)`, active in area "A". -/
def pIn10 : Player :=
  { id := "p1", userName := "u",
    location := { x := 10, y := 10, rotation := "front", moving := false,
                  conversationLabel := none },
    activeConversationArea := some "A" }

/-- A location at `(25, 25)` asserting membership in area "A" — the
point is far outside `box10`. -/
def loc25A : UserLocation :=
  { x := 25, y := 25, rotation := "front", moving := false,
    conversationLabel := some "A" }

/-- The occupied variant of `areaA` (player "p" inside). -/
def areaAocc : ServerConversationArea := { areaA with occupantsByID := ["p"] }

/-- The player "p" at the center of `box5`, active in area "A". -/
def pAct : Player :=
  { id := "p", userName := "u",
    location := { x := 5, y := 5, rotation := "front", moving := false,
                  conversationLabel := some "A" },
    activeConversationArea := some "A" }

/-- A second player "q" at `(100, 100)`, active in area "B". -/
def qAct : Player :=
  { id := "q", userName := "u2",
    location := { x := 100, y := 100, rotation := "front", moving := false,
                  conversationLabel := some "B" },
    activeConversationArea := some "B" }

/-- Area "B" centered at `(100, 100)`, occupied by "q". -/
def areaBocc : ServerConversationArea :=
  { label := "B", topic := "T2", occupantsByID := ["q"],
    boundingBox := { x := 100, y := 100, width := 5, height := 5 } }

/-- A town where "p" alone occupies area "A" and holds session "tok". -/
def townC7 : TownState :=
  { town0 with players := [pAct], sessions := [sessTok],
               conversationAreas := [areaAocc] }

/-- The player "p" at the center of `box5`, in no conversation area. -/
def pIdle : Player :=
  { id := "p", userName := "u",
    location := { x := 5, y := 5, rotation := "front", moving := false,
                  conversationLabel := none },
    activeConversationArea := none }

/-- A town where "p" holds session "tok" but is in no conversation area
(the plain disconnect scenario of the listener tests). -/
def townC7b : TownState :=
  { town0 with players := [pIdle], sessions := [sessTok] }

/-- A town with two singly-occupied areas, "p" in "A" and "q" in "B";
"p" holds session "tok". -/
def townC9 : TownState :=
  { town0 with players := [pAct, qAct], sessions := [sessTok],
               conversationAreas := [areaAocc, areaBocc] }

/-- Area "A" of the between-areas scenario, occupied by "p1" and "p2". -/
def areaS4A : ServerConversationArea :=
  { label := "A", topic := "T", occupantsByID := ["p1", "p2"],
    boundingBox := box10 }

/-- Area "B" of the between-areas scenario, initially empty. -/
def areaS4B : ServerConversationArea :=
  { label := "B", topic := "T2", occupantsByID := [],
    boundingBox := { x := 100, y := 100, width := 5, height := 5 } }

/-- The player "p1" of the between-areas scenario, active in "A". -/
def pS4 : Player :=
  { id := "p1", userName := "u",
    location := { x := 10, y := 10, rotation := "front", moving := false,
                  conversationLabel := some "A" },
    activeConversationArea := some "A" }

/-- A location inside area "B" asserting membership in "B". -/
def locS4 : UserLocation :=
  { x := 100, y := 100, rotation := "front", moving := false,
    conversationLabel := some "B" }

/-! ## Helper lemmas -/

theorem label_addToArea (lbl pid : String) (a : ServerConversationArea) :
    (addToArea lbl pid a).label = a.label := by
  unfold addToArea; split <;> rfl

theorem label_removeFromArea (lbl pid : String) (a : ServerConversationArea) :
    (removeFromArea lbl pid a).label = a.label := by
  unfold removeFromArea; split <;> rfl

theorem addToArea_of_ne (lbl pid : String) (a : ServerConversationArea)
    (h : a.label ≠ lbl) : addToArea lbl pid a = a := by
  unfold addToArea; simp [h]

theorem removeFromArea_of_ne (lbl pid : String) (a : ServerConversationArea)
    (h : a.label ≠ lbl) : removeFromArea lbl pid a = a := by
  unfold removeFromArea; simp [h]

theorem find?_label_map (f : ServerConversationArea → ServerConversationArea)
    (hf : ∀ a, (f a).label = a.label) (l : List ServerConversationArea)
    (lbl : String) :
    (l.map f).find? (fun a => a.label == lbl) =
      Option.map f (l.find? (fun a => a.label == lbl)) := by
  induction l with
  | nil => rfl
  | cons a t ih =>
    by_cases h : a.label = lbl
    · rw [List.map_cons, List.find?_cons_of_pos _ (by simp [hf, h]),
          List.find?_cons_of_pos _ (by simp [h]), Option.map_some']
    · rw [List.map_cons, List.find?_cons_of_neg _ (by simp [hf, h]),
          List.find?_cons_of_neg _ (by simp [h]), ih]

theorem any_label_map (f : ServerConversationArea → ServerConversationArea)
    (hf : ∀ a, (f a).label = a.label) (l : List ServerConversationArea)
    (lbl : String) :
    (l.map f).any (fun a => a.label == lbl) =
      l.any (fun a => a.label == lbl) := by
  induction l with
  | nil => rfl
  | cons a t ih => simp only [List.map_cons, List.any_cons, ih, hf]

theorem filter_label_map_frame
    (f : ServerConversationArea → ServerConversationArea) (lbl : String)
    (hf : ∀ a, (f a).label = a.label) (hfix : ∀ a, a.label ≠ lbl → f a = a)
    (l : List ServerConversationArea) :
    (l.map f).filter (fun a => a.label != lbl) =
      l.filter (fun a => a.label != lbl) := by
  induction l with
  | nil => rfl
  | cons a t ih =>
    by_cases h : a.label = lbl
    · simp only [List.map_cons, List.filter_cons, hf, h, ih,
        bne_self_eq_false, if_false, Bool.false_eq_true]
    · simp only [List.map_cons, List.filter_cons, hf, hfix a h, ih]

theorem find?_filter_of_imp {α : Type} (p q : α → Bool) (l : List α)
    (h : ∀ a, p a = true → q a = true) :
    (l.filter q).find? p = l.find? p := by
  induction l with
  | nil => rfl
  | cons a t ih =>
    by_cases hq : q a = true
    · rw [List.filter_cons_of_pos hq]
      by_cases hp : p a = true
      · rw [List.find?_cons_of_pos _ hp, List.find?_cons_of_pos _ hp]
      · rw [List.find?_cons_of_neg _ hp, List.find?_cons_of_neg _ hp, ih]
    · have hp : ¬p a = true := fun hpa => hq (h a hpa)
      rw [List.filter_cons_of_neg hq, List.find?_cons_of_neg _ hp, ih]

theorem ratAbs_eq_abs (q : ℚ) : ratAbs q = |q| := by
  unfold ratAbs
  by_cases h : q < 0
  · rw [if_pos h, abs_of_neg h]
  · rw [if_neg h, abs_of_nonneg (not_lt.mp h)]

theorem boxContains_iff (b : BoundingBox) (px py : ℚ) :
    boxContains b px py = true ↔
      |px - b.x| < b.width / 2 ∧ |py - b.y| < b.height / 2 := by
  simp [boxContains, ratAbs_eq_abs]

theorem boxOverlaps_iff (b1 b2 : BoundingBox) :
    boxOverlaps b1 b2 = true ↔
      |b1.x - b2.x| < (b1.width + b2.width) / 2 ∧
        |b1.y - b2.y| < (b1.height + b2.height) / 2 := by
  simp [boxOverlaps, ratAbs_eq_abs]

theorem isValidArea_iff (s : TownState) (area : ServerConversationArea) :
    isValidArea s area = true ↔
      (area.label ≠ "" ∧ (∀ a ∈ s.conversationAreas, a.label ≠ area.label) ∧
       area.topic ≠ "" ∧
       ∀ a ∈ s.conversationAreas,
         ¬(|a.boundingBox.x - area.boundingBox.x| <
             (a.boundingBox.width + area.boundingBox.width) / 2 ∧
           |a.boundingBox.y - area.boundingBox.y| <
             (a.boundingBox.height + area.boundingBox.height) / 2)) := by
  simp only [isValidArea, boxOverlaps, ratAbs_eq_abs, Bool.and_eq_true,
    bne_iff_ne, ne_eq, List.all_eq_true, Bool.not_eq_true',
    decide_eq_false_iff_not, and_assoc]

theorem enterArea_eq (areas : List ServerConversationArea) (lbl pid : String)
    (A : ServerConversationArea)
    (hA : areas.find? (fun a => a.label == lbl) = some A) :
    enterArea areas lbl pid =
      (areas.map (addToArea lbl pid),
       [TownEvent.conversationAreaUpdated
          { A with occupantsByID := A.occupantsByID ++ [pid] }]) := by
  have hlbl : A.label = lbl := by simpa using List.find?_some hA
  unfold enterArea
  simp only [find?_label_map (addToArea lbl pid) (label_addToArea lbl pid),
    hA, Option.map_some']
  simp [addToArea, hlbl]

theorem leaveArea_eq (areas : List ServerConversationArea) (lbl pid : String)
    (A : ServerConversationArea)
    (hA : areas.find? (fun a => a.label == lbl) = some A) :
    leaveArea areas lbl pid =
      (if (A.occupantsByID.filter (fun o => o != pid)).isEmpty then
         ((areas.map (removeFromArea lbl pid)).filter (fun b => b.label != lbl),
          [TownEvent.conversationAreaDestroyed
             { A with occupantsByID := A.occupantsByID.filter (fun o => o != pid) }])
       else
         (areas.map (removeFromArea lbl pid),
          [TownEvent.conversationAreaUpdated
             { A with occupantsByID := A.occupantsByID.filter (fun o => o != pid) }])) := by
  have hlbl : A.label = lbl := by simpa using List.find?_some hA
  unfold leaveArea
  simp only [find?_label_map (removeFromArea lbl pid)
    (label_removeFromArea lbl pid), hA, Option.map_some']
  simp only [removeFromArea, hlbl, beq_self_eq_true, if_true]

theorem leaveArea_eq_none (areas : List ServerConversationArea)
    (lbl pid : String)
    (hA : areas.find? (fun a => a.label == lbl) = none) :
    leaveArea areas lbl pid = (areas.map (removeFromArea lbl pid), []) := by
  unfold leaveArea
  simp only [find?_label_map (removeFromArea lbl pid)
    (label_removeFromArea lbl pid), hA, Option.map_none']

theorem leaveArea_presence (areas : List ServerConversationArea)
    (lbl pid : String) (A : ServerConversationArea)
    (hA : areas.find? (fun a => a.label == lbl) = some A) :
    ((leaveArea areas lbl pid).1.any (fun a => a.label == lbl) = true ↔
      A.occupantsByID.filter (fun o => o != pid) ≠ []) := by
  rw [leaveArea_eq areas lbl pid A hA]
  by_cases he : (A.occupantsByID.filter (fun o => o != pid)).isEmpty
  · have hnil : A.occupantsByID.filter (fun o => o != pid) = [] :=
      List.isEmpty_iff.mp he
    rw [if_pos he]
    constructor
    · intro h
      rcases List.any_eq_true.mp h with ⟨x, hx, hxl⟩
      rcases List.mem_filter.mp hx with ⟨_, hne⟩
      exact absurd (by simpa using hxl) (by simpa using hne)
    · intro h; exact absurd hnil h
  · have hnil : A.occupantsByID.filter (fun o => o != pid) ≠ [] := by
      intro h; exact he (by simp [h])
    rw [if_neg he]
    constructor
    · intro _; exact hnil
    · intro _
      show (areas.map (removeFromArea lbl pid)).any
        (fun a => a.label == lbl) = true
      rw [any_label_map (removeFromArea lbl pid)
        (label_removeFromArea lbl pid)]
      exact List.any_eq_true.mpr
        ⟨A, List.mem_of_find?_eq_some hA, by simpa using List.find?_some hA⟩

theorem leaveArea_frame (areas : List ServerConversationArea)
    (lbl pid : String) :
    (leaveArea areas lbl pid).1.filter (fun a => a.label != lbl) =
      areas.filter (fun a => a.label != lbl) := by
  have hframe := filter_label_map_frame (removeFromArea lbl pid) lbl
    (label_removeFromArea lbl pid) (removeFromArea_of_ne lbl pid) areas
  cases hf : areas.find? (fun a => a.label == lbl) with
  | none => rw [leaveArea_eq_none areas lbl pid hf]; exact hframe
  | some A =>
    rw [leaveArea_eq areas lbl pid A hf]
    by_cases he : (A.occupantsByID.filter (fun o => o != pid)).isEmpty
    · rw [if_pos he]
      show ((areas.map (removeFromArea lbl pid)).filter
          (fun b => b.label != lbl)).filter (fun a => a.label != lbl) =
        areas.filter (fun a => a.label != lbl)
      rw [List.filter_filter]
      have hpp : (fun b : ServerConversationArea =>
          (b.label != lbl) && (b.label != lbl)) =
          (fun b : ServerConversationArea => b.label != lbl) := by
        funext b; cases b.label != lbl <;> rfl
      rw [hpp]
      exact hframe
    · rw [if_neg he]
      exact hframe

theorem addArea_ok (s : TownState) (area : ServerConversationArea) :
    (addConversationArea s area).ok = isValidArea s area := by
  by_cases hv : isValidArea s area = true <;> simp [addConversationArea, hv]

theorem addArea_neg (s : TownState) (area : ServerConversationArea)
    (hv : isValidArea s area = false) :
    addConversationArea s area = { state := s, ok := false, events := [] } := by
  simp [addConversationArea, hv]

theorem addArea_areas_of_valid (s : TownState)
    (area : ServerConversationArea) (hv : isValidArea s area = true) :
    (addConversationArea s area).state.conversationAreas =
      s.conversationAreas ++
        [{ area with occupantsByID := (admittedPlayers s area).map Player.id }] := by
  simp [addConversationArea, admittedPlayers, hv]

/-! ## Claim theorems -/

/-- C1: for every town state and conversation area argument,
`addConversationArea` returns `true` and inserts the area iff the
area's label is non-empty and fresh, the topic is non-empty, and the
bounding box overlaps no existing area's box (boxes sharing only an
edge are allowed); on rejection it returns `false`, changes no state,
and emits no event. -/
theorem addConversationArea_acceptance (s : TownState)
    (area : ServerConversationArea) :
    ((addConversationArea s area).ok = true ↔
      (area.label ≠ "" ∧ (∀ a ∈ s.conversationAreas, a.label ≠ area.label) ∧
       area.topic ≠ "" ∧
       ∀ a ∈ s.conversationAreas,
         ¬(|a.boundingBox.x - area.boundingBox.x| <
             (a.boundingBox.width + area.boundingBox.width) / 2 ∧
           |a.boundingBox.y - area.boundingBox.y| <
             (a.boundingBox.height + area.boundingBox.height) / 2))) ∧
    ((addConversationArea s area).ok = true →
      ∃ a' ∈ (addConversationArea s area).state.conversationAreas,
        a'.label = area.label ∧ a'.topic = area.topic ∧
          a'.boundingBox = area.boundingBox) ∧
    ((addConversationArea s area).ok = false →
      (addConversationArea s area).state = s ∧
        (addConversationArea s area).events = []) := by
  refine ⟨by rw [addArea_ok]; exact isValidArea_iff s area, ?_, ?_⟩
  · intro hok
    have hv : isValidArea s area = true := by rw [← addArea_ok]; exact hok
    rw [addArea_areas_of_valid s area hv]
    exact ⟨_, List.mem_append_right _ (List.mem_singleton.mpr rfl),
      rfl, rfl, rfl⟩
  · intro hok
    have hv : isValidArea s area = false := by rw [← addArea_ok]; exact hok
    rw [addArea_neg s area hv]
    exact ⟨rfl, rfl⟩

/-- C1 witness: on the empty town, a concrete valid area is accepted and
appears in the area list; a concrete area with an empty topic is
rejected leaving the state untouched. -/
theorem addConversationArea_acceptance_witness :
    (∃ a' ∈ (addConversationArea town0 areaA).state.conversationAreas,
      a'.label = "A" ∧ a'.topic = "T" ∧ a'.boundingBox = box5) ∧
    (addConversationArea town0 areaATopicless).state = town0 := by
  constructor
  · exact (addConversationArea_acceptance town0 areaA).2.1 (by decide)
  · exact ((addConversationArea_acceptance town0 areaATopicless).2.2
      (by decide)).1

/-- C6: every `addPlayer` call invokes the token broker exactly once
with `(coveyTownID, player.id)`, binds whatever the broker returned
inside the session it produces, emits `playerJoined(player)` to the
listeners, and commits player and session into the town state. -/
theorem addPlayer_brokerCall (s : TownState) (p : Player) (tok : String)
    (broker : String → String → String) :
    (addPlayer s p tok broker).brokerCalls = [(s.coveyTownID, p.id)] ∧
    (addPlayer s p tok broker).session.videoToken =
      broker s.coveyTownID p.id ∧
    (addPlayer s p tok broker).events = [TownEvent.playerJoined p] ∧
    (addPlayer s p tok broker).session ∈
      (addPlayer s p tok broker).state.sessions ∧
    p ∈ (addPlayer s p tok broker).state.players := by
  refine ⟨rfl, rfl, rfl, ?_, ?_⟩ <;> simp [addPlayer]

/-- C5: a point is strictly inside a box iff both offsets from the
center are strictly below the half-extents, so edge points are outside;
consequently a successful `addConversationArea` admits into the new
area's occupant list exactly the players strictly inside the new box
whose active conversation area is none. -/
theorem strict_containment_occupancy :
    (∀ (b : BoundingBox) (px py : ℚ), boxContains b px py = true ↔
      |px - b.x| < b.width / 2 ∧ |py - b.y| < b.height / 2) ∧
    (∀ (b : BoundingBox) (px py : ℚ),
      |px - b.x| = b.width / 2 ∨ |py - b.y| = b.height / 2 →
      boxContains b px py = false) ∧
    (∀ (s : TownState) (area : ServerConversationArea) (pid : String),
      (addConversationArea s area).ok = true →
      ((∃ a' ∈ (addConversationArea s area).state.conversationAreas,
          a'.label = area.label ∧ pid ∈ a'.occupantsByID) ↔
        ∃ p ∈ s.players, p.id = pid ∧
          |p.location.x - area.boundingBox.x| < area.boundingBox.width / 2 ∧
          |p.location.y - area.boundingBox.y| < area.boundingBox.height / 2 ∧
          p.activeConversationArea = none)) := by
  refine ⟨boxContains_iff, ?_, ?_⟩
  · intro b px py h
    rcases h with h | h <;> simp [boxContains, ratAbs_eq_abs, h]
  · intro s area pid hok
    have hv : isValidArea s area = true := by rw [← addArea_ok]; exact hok
    rw [addArea_areas_of_valid s area hv]
    constructor
    · rintro ⟨a', ha', hlab, hmem⟩
      rcases List.mem_append.mp ha' with h | h
      · exact absurd hlab (((isValidArea_iff s area).mp hv).2.1 a' h)
      · have ha : a' = { area with
            occupantsByID := (admittedPlayers s area).map Player.id } := by
          simpa using h
        rw [ha] at hmem
        rcases List.mem_map.mp hmem with ⟨p, hp, hpid⟩
        rcases List.mem_filter.mp hp with ⟨hpl, hcond⟩
        rw [Bool.and_eq_true] at hcond
        refine ⟨p, hpl, hpid, ?_, ?_, ?_⟩
        · exact ((boxContains_iff _ _ _).mp hcond.1).1
        · exact ((boxContains_iff _ _ _).mp hcond.1).2
        · exact beq_iff_eq.mp hcond.2
    · rintro ⟨p, hp, hpid, hx, hy, hact⟩
      refine ⟨{ area with
          occupantsByID := (admittedPlayers s area).map Player.id },
        List.mem_append_right _ (List.mem_singleton.mpr rfl), rfl, ?_⟩
      refine List.mem_map.mpr ⟨p, List.mem_filter.mpr ⟨hp, ?_⟩, hpid⟩
      rw [Bool.and_eq_true]
      exact ⟨(boxContains_iff _ _ _).mpr ⟨hx, hy⟩, beq_iff_eq.mpr hact⟩

/-- C5 witness: in a town with one player at the center of the box, one
on its right edge, and one already bound to another area, a successful
creation admits exactly the free interior player. -/
theorem strict_containment_occupancy_witness :
    boxContains box5 (15/2) 6 = false ∧
    ((∃ a' ∈ (addConversationArea townC5 areaA).state.conversationAreas,
        a'.label = "A" ∧ "in" ∈ a'.occupantsByID) ∧
     ¬(∃ a' ∈ (addConversationArea townC5 areaA).state.conversationAreas,
        a'.label = "A" ∧ "edge" ∈ a'.occupantsByID)) := by
  refine ⟨?_, ?_, ?_⟩
  · exact (strict_containment_occupancy.2.1 box5 (15/2) 6
      (Or.inl (by norm_num [box5])))
  · exact (strict_containment_occupancy.2.2 townC5 areaA "in"
      (by decide)).mpr
      ⟨playerIn, by simp [townC5, town0], rfl, by norm_num [playerIn, areaA, box5],
        by norm_num [playerIn, areaA, box5], rfl⟩
  · intro hc
    rcases (strict_containment_occupancy.2.2 townC5 areaA "edge"
      (by decide)).mp hc with ⟨p, hp, hpid, hx, hy, hact⟩
    have hp2 : p = playerIn ∨ p = playerEdge := by
      simpa [townC5, town0] using hp
    rcases hp2 with h | h
    · rw [h] at hpid; exact absurd hpid (by decide)
    · rw [h] at hx
      norm_num [playerEdge, areaA, box5] at hx
      rw [abs_of_nonneg (by norm_num : (0:ℚ) ≤ 5/2)] at hx
      exact lt_irrefl _ hx

/-- C8: when the request's session token resolves to no session of the
target town, the handler never calls `addConversationArea`, leaves the
town untouched, and answers `isOK = false` with exactly the message
"Unable to create conversation area <label> with topic <topic>"; the
same envelope and untouched town result when `addConversationArea`
itself rejects the area. -/
theorem conversationAreaCreateHandler_failure (s : TownState)
    (req : ConversationAreaCreateRequest) :
    (getSessionByToken s req.sessionToken = none →
      (conversationAreaCreateHandler (some s) req).addCalled = false ∧
      (conversationAreaCreateHandler (some s) req).town = some s ∧
      (conversationAreaCreateHandler (some s) req).envelope =
        { isOK := false,
          message := some ("Unable to create conversation area " ++
            req.conversationArea.label ++ " with topic " ++
            req.conversationArea.topic) }) ∧
    (∀ sess, getSessionByToken s req.sessionToken = some sess →
      (addConversationArea s req.conversationArea).ok = false →
      (conversationAreaCreateHandler (some s) req).town = some s ∧
      (conversationAreaCreateHandler (some s) req).envelope =
        { isOK := false,
          message := some ("Unable to create conversation area " ++
            req.conversationArea.label ++ " with topic " ++
            req.conversationArea.topic) }) := by
  constructor
  · intro h
    simp [conversationAreaCreateHandler, h, conversationAreaFailureMessage]
  · intro sess h hok
    have hv : isValidArea s req.conversationArea = false := by
      rw [← addArea_ok]; exact hok
    constructor
    · simp [conversationAreaCreateHandler, h, hok,
        addArea_neg s req.conversationArea hv]
    · simp [conversationAreaCreateHandler, h, hok,
        conversationAreaFailureMessage]

/-- C8 witness: a town with no sessions rejects a concrete request
without calling `addConversationArea`, and a resolving session paired
with an overlap-rejected area yields the same failure envelope. -/
theorem conversationAreaCreateHandler_failure_witness :
    ((conversationAreaCreateHandler (some town0) reqA).addCalled = false ∧
     (conversationAreaCreateHandler (some town0) reqA).envelope =
        { isOK := false,
          message := some "Unable to create conversation area A with topic T" }) ∧
    (conversationAreaCreateHandler (some townC8) reqB).envelope =
        { isOK := false,
          message := some "Unable to create conversation area B with topic T" } := by
  constructor
  · constructor
    · exact ((conversationAreaCreateHandler_failure town0 reqA).1
        (by decide)).1
    · exact ((conversationAreaCreateHandler_failure town0 reqA).1
        (by decide)).2.2
  · exact ((conversationAreaCreateHandler_failure townC8 reqB).2 sessTok
      (by decide)
      (by rw [addArea_ok]
          norm_num [isValidArea, townC8, town0, areaA, areaB22, reqB, box5,
            boxOverlaps, ratAbs])).2

/-- C10: `addPlayer` performs no duplicate check — adding a player a
second time also succeeds, triggers another broker call with the same
`(coveyTownID, player.id)` arguments, emits `playerJoined` again,
produces a session distinct from the first (session tokens are fresh),
and leaves the player counted twice in the player set. -/
theorem addPlayer_noDuplicateCheck (s : TownState) (p : Player)
    (t1 t2 : String) (broker : String → String → String) (hts : t1 ≠ t2) :
    (addPlayer (addPlayer s p t1 broker).state p t2 broker).brokerCalls =
      [(s.coveyTownID, p.id)] ∧
    (addPlayer (addPlayer s p t1 broker).state p t2 broker).events =
      [TownEvent.playerJoined p] ∧
    (addPlayer (addPlayer s p t1 broker).state p t2 broker).session ≠
      (addPlayer s p t1 broker).session ∧
    (addPlayer s p t1 broker).session ∈
      (addPlayer (addPlayer s p t1 broker).state p t2 broker).state.sessions ∧
    (addPlayer (addPlayer s p t1 broker).state p t2 broker).session ∈
      (addPlayer (addPlayer s p t1 broker).state p t2 broker).state.sessions ∧
    (addPlayer (addPlayer s p t1 broker).state p t2
        broker).state.players.count p = s.players.count p + 2 := by
  refine ⟨rfl, rfl, ?_, ?_, ?_, ?_⟩
  · intro h
    have h2 : t2 = t1 := congrArg PlayerSession.sessionToken h
    exact hts h2.symm
  · simp [addPlayer]
  · simp [addPlayer]
  · simp [addPlayer, List.count_append]

/-- C10 witness: adding the same concrete player twice to the empty town
with distinct fresh tokens yields two sessions and a doubled count. -/
theorem addPlayer_noDuplicateCheck_witness :
    (addPlayer (addPlayer town0 player0 "tok1" (fun a b => a ++ b)).state
        player0 "tok2" (fun a b => a ++ b)).state.players.count player0 = 2 ∧
    (addPlayer (addPlayer town0 player0 "tok1" (fun a b => a ++ b)).state
        player0 "tok2" (fun a b => a ++ b)).session ≠
      (addPlayer town0 player0 "tok1" (fun a b => a ++ b)).session := by
  have h := addPlayer_noDuplicateCheck town0 player0 "tok1" "tok2"
    (fun a b => a ++ b) (by decide)
  exact ⟨by simpa [town0] using h.2.2.2.2.2, h.2.2.1⟩

theorem updatePlayerLocation_active (areas : List ServerConversationArea)
    (p : Player) (loc : UserLocation) :
    (updatePlayerLocation areas p loc).player.activeConversationArea =
      nextLabel areas loc := by
  unfold updatePlayerLocation
  cases hp : p.activeConversationArea with
  | none =>
    cases hn : nextLabel areas loc with
    | none => simp [hp, hn]
    | some b => simp [hp, hn]
  | some a =>
    cases hn : nextLabel areas loc with
    | none => simp [hp, hn]
    | some b =>
      by_cases hab : a = b
      · simp [hp, hn, hab]
      · simp [hp, hn, hab]

/-- C3 counterexample: in the state the movement tests construct (player
"p1" admitted into area "A" over the box centered at `(10, 10)`), an
update to `(25, 25)` — far outside the box — carrying
`conversationLabel = "A"` leaves the player's active conversation area
equal to "A", although `(25, 25)` is not strictly inside the box: the
client-asserted label wins over geometry. -/
theorem updatePlayerLocation_labelBeatsGeometry_cex :
    (updatePlayerLocation [areaA10] pIn10 loc25A).player.activeConversationArea
      = some "A" ∧
    boxContains box10 25 25 = false := by
  constructor
  · rfl
  · norm_num [boxContains, ratAbs, box10]

/-- C3 (amended): when `newLocation.conversationLabel` names an existing
area, the player's resulting active conversation area is that area
regardless of the new `(x, y)`; when the label is absent or names no
area, the resulting active conversation area is none. -/
theorem updatePlayerLocation_nextArea (areas : List ServerConversationArea)
    (p : Player) (loc : UserLocation) (lbl : String) :
    (loc.conversationLabel = some lbl → (∃ a ∈ areas, a.label = lbl) →
      (updatePlayerLocation areas p loc).player.activeConversationArea =
        some lbl) ∧
    (loc.conversationLabel = some lbl → (∀ a ∈ areas, a.label ≠ lbl) →
      (updatePlayerLocation areas p loc).player.activeConversationArea =
        none) ∧
    (loc.conversationLabel = none →
      (updatePlayerLocation areas p loc).player.activeConversationArea =
        none) := by
  refine ⟨?_, ?_, ?_⟩
  · intro h hex
    rcases hex with ⟨a, ha, hal⟩
    have hany : areas.any (fun b => b.label == lbl) = true :=
      List.any_eq_true.mpr ⟨a, ha, beq_iff_eq.mpr hal⟩
    rw [updatePlayerLocation_active]
    simp [nextLabel, h, hany]
  · intro h hall
    have hany : areas.any (fun b => b.label == lbl) = false := by
      refine Bool.eq_false_iff.mpr fun hany => ?_
      rcases List.any_eq_true.mp hany with ⟨a, ha, hal⟩
      exact hall a ha (beq_iff_eq.mp hal)
    rw [updatePlayerLocation_active]
    simp [nextLabel, h, hany]
  · intro h
    rw [updatePlayerLocation_active]
    simp [nextLabel, h]

/-- C3 (amended) witness: a player in no area moving to `(25, 25)` with
the label of the existing area "A" is admitted despite the point being
outside the box, and a label-free update leaves them area-less. -/
theorem updatePlayerLocation_nextArea_witness :
    (updatePlayerLocation [areaA10] player0 loc25A).player.activeConversationArea
      = some "A" ∧
    (updatePlayerLocation [areaA10] player0
        { x := 25, y := 25, rotation := "front", moving := false,
          conversationLabel := none }).player.activeConversationArea = none := by
  constructor
  · exact (updatePlayerLocation_nextArea [areaA10] player0 loc25A "A").1
      rfl ⟨areaA10, List.mem_singleton.mpr rfl, rfl⟩
  · exact (updatePlayerLocation_nextArea [areaA10] player0
      { x := 25, y := 25, rotation := "front", moving := false,
        conversationLabel := none } "A").2.2 rfl

theorem destroySession_known (s : TownState) (sess : PlayerSession)
    (p : Player) (lbl : String)
    (hany : s.sessions.any
      (fun t => t.sessionToken == sess.sessionToken) = true)
    (hfind : s.players.find? (fun q => q.id == sess.playerID) = some p)
    (hact : p.activeConversationArea = some lbl) :
    destroySession s sess =
      ({ s with
          players := s.players.filter (fun q => q.id != p.id),
          sessions := s.sessions.filter
            (fun t => t.sessionToken != sess.sessionToken),
          conversationAreas := (leaveArea s.conversationAreas lbl p.id).1 },
       (leaveArea s.conversationAreas lbl p.id).2 ++
         [TownEvent.playerDisconnected
            { p with activeConversationArea := none }]) := by
  unfold destroySession
  rw [if_pos hany]
  simp only [hfind, hact]

theorem destroySession_known_none (s : TownState) (sess : PlayerSession)
    (p : Player)
    (hany : s.sessions.any
      (fun t => t.sessionToken == sess.sessionToken) = true)
    (hfind : s.players.find? (fun q => q.id == sess.playerID) = some p)
    (hact : p.activeConversationArea = none) :
    destroySession s sess =
      ({ s with
          players := s.players.filter (fun q => q.id != p.id),
          sessions := s.sessions.filter
            (fun t => t.sessionToken != sess.sessionToken),
          conversationAreas := s.conversationAreas },
       [TownEvent.playerDisconnected
          { p with activeConversationArea := none }]) := by
  unfold destroySession
  rw [if_pos hany]
  simp only [hfind, hact, List.nil_append]

/-- C7: destroying an unknown session is a silent no-op; destroying a
known session evicts the player from their active area — emitting
`conversationAreaDestroyed` for it iff the player was its last
occupant, `conversationAreaUpdated` otherwise — removes the session and
player, and emits `playerDisconnected(player)` last; when the player is
in no area, only `playerDisconnected` fires and session and player are
removed just the same. -/
theorem destroySession_spec (s : TownState) (sess : PlayerSession) :
    ((∀ t ∈ s.sessions, t.sessionToken ≠ sess.sessionToken) →
      destroySession s sess = (s, [])) ∧
    (∀ p,
      (∃ t ∈ s.sessions, t.sessionToken = sess.sessionToken) →
      s.players.find? (fun q => q.id == sess.playerID) = some p →
      p.activeConversationArea = none →
      (destroySession s sess).2 =
        [TownEvent.playerDisconnected
           { p with activeConversationArea := none }] ∧
      (destroySession s sess).1.sessions =
        s.sessions.filter (fun t => t.sessionToken != sess.sessionToken) ∧
      (destroySession s sess).1.players =
        s.players.filter (fun q => q.id != p.id)) ∧
    (∀ p lbl A,
      (∃ t ∈ s.sessions, t.sessionToken = sess.sessionToken) →
      s.players.find? (fun q => q.id == sess.playerID) = some p →
      p.activeConversationArea = some lbl →
      s.conversationAreas.find? (fun a => a.label == lbl) = some A →
      ((destroySession s sess).2 =
        (if (A.occupantsByID.filter (fun o => o != p.id)).isEmpty then
           [TownEvent.conversationAreaDestroyed
              { A with occupantsByID :=
                  A.occupantsByID.filter (fun o => o != p.id) }]
         else
           [TownEvent.conversationAreaUpdated
              { A with occupantsByID :=
                  A.occupantsByID.filter (fun o => o != p.id) }]) ++
          [TownEvent.playerDisconnected
             { p with activeConversationArea := none }]) ∧
      (destroySession s sess).1.sessions =
        s.sessions.filter (fun t => t.sessionToken != sess.sessionToken) ∧
      (destroySession s sess).1.players =
        s.players.filter (fun q => q.id != p.id)) := by
  refine ⟨?_, ?_, ?_⟩
  · intro h
    unfold destroySession
    rw [if_neg]
    refine Bool.eq_false_iff.mp ?_ ∘ fun hh => hh
    refine Bool.eq_false_iff.mpr fun hany => ?_
    rcases List.any_eq_true.mp hany with ⟨t, ht, htok⟩
    exact h t ht (beq_iff_eq.mp htok)
  · intro p hex hfind hact
    have hany : s.sessions.any
        (fun t => t.sessionToken == sess.sessionToken) = true := by
      rcases hex with ⟨t, ht, htok⟩
      exact List.any_eq_true.mpr ⟨t, ht, beq_iff_eq.mpr htok⟩
    rw [destroySession_known_none s sess p hany hfind hact]
    exact ⟨rfl, rfl, rfl⟩
  · intro p lbl A hex hfind hact hA
    have hany : s.sessions.any
        (fun t => t.sessionToken == sess.sessionToken) = true := by
      rcases hex with ⟨t, ht, htok⟩
      exact List.any_eq_true.mpr ⟨t, ht, beq_iff_eq.mpr htok⟩
    rw [destroySession_known s sess p lbl hany hfind hact]
    refine ⟨?_, rfl, rfl⟩
    rw [leaveArea_eq s.conversationAreas lbl p.id A hA]
    by_cases he : (A.occupantsByID.filter (fun o => o != p.id)).isEmpty
    · rw [if_pos he, if_pos he]
    · rw [if_neg he, if_neg he]

/-- C7 witness: destroying a session of the empty town is a no-op;
destroying "p"'s session in the town where "p" alone occupies area "A"
destroys "A" and then emits `playerDisconnected`; and destroying "p"'s
session while "p" is in no area emits only `playerDisconnected` and
still empties the session and player sets. -/
theorem destroySession_spec_witness :
    destroySession town0 sessTok = (town0, []) ∧
    (destroySession townC7 sessTok).2 =
      [TownEvent.conversationAreaDestroyed
         { areaAocc with occupantsByID := [] },
       TownEvent.playerDisconnected
         { pAct with activeConversationArea := none }] ∧
    ((destroySession townC7b sessTok).2 =
       [TownEvent.playerDisconnected pIdle] ∧
     (destroySession townC7b sessTok).1.sessions = [] ∧
     (destroySession townC7b sessTok).1.players = []) := by
  refine ⟨?_, ?_, ?_⟩
  · exact (destroySession_spec town0 sessTok).1 (by decide)
  · have h := ((destroySession_spec townC7 sessTok).2.2 pAct "A" areaAocc
      ⟨sessTok, by simp [townC7, town0], rfl⟩ rfl rfl rfl).1
    simpa using h
  · have h := (destroySession_spec townC7b sessTok).2.1 pIdle
      ⟨sessTok, by simp [townC7b, town0], rfl⟩ rfl rfl
    refine ⟨by simpa using h.1, by simpa using h.2.1, by simpa using h.2.2⟩

/-- C9: destroying a known session leaves every conversation area other
than the destroyed player's active area unchanged — the sublist of such
areas (contents and order) is the same before and after the call. -/
theorem destroySession_frame (s : TownState) (sess : PlayerSession)
    (p : Player)
    (hex : ∃ t ∈ s.sessions, t.sessionToken = sess.sessionToken)
    (hfind : s.players.find? (fun q => q.id == sess.playerID) = some p) :
    (destroySession s sess).1.conversationAreas.filter
        (fun a => !(p.activeConversationArea == some a.label)) =
      s.conversationAreas.filter
        (fun a => !(p.activeConversationArea == some a.label)) := by
  have hany : s.sessions.any
      (fun t => t.sessionToken == sess.sessionToken) = true := by
    rcases hex with ⟨t, ht, htok⟩
    exact List.any_eq_true.mpr ⟨t, ht, beq_iff_eq.mpr htok⟩
  cases hact : p.activeConversationArea with
  | none => rw [destroySession_known_none s sess p hany hfind hact]
  | some lbl =>
    rw [destroySession_known s sess p lbl hany hfind hact]
    have hcong : ∀ a : ServerConversationArea,
        (!(some lbl == some a.label)) = (a.label != lbl) := by
      intro a
      by_cases h : a.label = lbl
      · simp [h]
      · have h1 : (lbl == a.label) = false :=
          beq_eq_false_iff_ne.mpr fun hh => h hh.symm
        have h2 : (a.label == lbl) = false := beq_eq_false_iff_ne.mpr h
        simp [bne, h1, h2]
    calc (leaveArea s.conversationAreas lbl p.id).1.filter
          (fun a => !(some lbl == some a.label))
        = (leaveArea s.conversationAreas lbl p.id).1.filter
            (fun a => a.label != lbl) :=
          List.filter_congr (fun a _ => hcong a)
      _ = s.conversationAreas.filter (fun a => a.label != lbl) :=
          leaveArea_frame s.conversationAreas lbl p.id
      _ = s.conversationAreas.filter (fun a => !(some lbl == some a.label)) :=
          (List.filter_congr (fun a _ => hcong a)).symm

/-- C9 witness: in the two-area town, destroying "p"'s session (active
in "A") leaves area "B" — with its occupant "q" — untouched. -/
theorem destroySession_frame_witness :
    (destroySession townC9 sessTok).1.conversationAreas.filter
        (fun a => !(pAct.activeConversationArea == some a.label)) =
      townC9.conversationAreas.filter
        (fun a => !(pAct.activeConversationArea == some a.label)) ∧
    areaBocc ∈ townC9.conversationAreas.filter
        (fun a => !(pAct.activeConversationArea == some a.label)) := by
  constructor
  · exact destroySession_frame townC9 sessTok pAct
      ⟨sessTok, by simp [townC9, town0], rfl⟩ rfl
  · simp [townC9, town0, areaBocc, areaAocc, areaA, pAct]

/-- C2 counterexample: on the empty town, `addConversationArea` — a
public mutation — succeeds and returns with a zero-occupant area
present in the area list, so "an area is in the list iff its occupant
count is at least 1" fails right after the mutation returns. -/
theorem occupancy_invariant_cex :
    (addConversationArea town0 areaA).ok = true ∧
    ¬(∀ a ∈ (addConversationArea town0 areaA).state.conversationAreas,
        1 ≤ a.occupantsByID.length) := by
  constructor
  · decide
  · decide

/-- C2 (amended): whenever a mutation evicts a player from an area —
`destroySession`, or `updatePlayerLocation` with no next area — the
area remains in the area list iff it still has at least one occupant;
(`addConversationArea` may insert an area with zero occupants, which
stays listed, per the counterexample). -/
theorem occupancy_presence_after_eviction :
    (∀ (s : TownState) (sess : PlayerSession) (p : Player) (lbl : String)
       (A : ServerConversationArea),
      (∃ t ∈ s.sessions, t.sessionToken = sess.sessionToken) →
      s.players.find? (fun q => q.id == sess.playerID) = some p →
      p.activeConversationArea = some lbl →
      s.conversationAreas.find? (fun a => a.label == lbl) = some A →
      ((destroySession s sess).1.conversationAreas.any
          (fun a => a.label == lbl) = true ↔
        A.occupantsByID.filter (fun o => o != p.id) ≠ [])) ∧
    (∀ (areas : List ServerConversationArea) (p : Player)
       (loc : UserLocation) (lbl : String) (A : ServerConversationArea),
      p.activeConversationArea = some lbl →
      nextLabel areas loc = none →
      areas.find? (fun a => a.label == lbl) = some A →
      ((updatePlayerLocation areas p loc).areas.any
          (fun a => a.label == lbl) = true ↔
        A.occupantsByID.filter (fun o => o != p.id) ≠ [])) := by
  constructor
  · intro s sess p lbl A hex hfind hact hA
    have hany : s.sessions.any
        (fun t => t.sessionToken == sess.sessionToken) = true := by
      rcases hex with ⟨t, ht, htok⟩
      exact List.any_eq_true.mpr ⟨t, ht, beq_iff_eq.mpr htok⟩
    rw [destroySession_known s sess p lbl hany hfind hact]
    exact leaveArea_presence s.conversationAreas lbl p.id A hA
  · intro areas p loc lbl A hact hnext hA
    unfold updatePlayerLocation
    simp only [hact, hnext]
    exact leaveArea_presence areas lbl p.id A hA

/-- C2 (amended) witness: destroying the session of the sole occupant of
"A" removes "A" (count reached 0), and a label-free move of "p1" out of
the doubly-occupied area "A" keeps "A" listed (count 1). -/
theorem occupancy_presence_after_eviction_witness :
    ((destroySession townC9 sessTok).1.conversationAreas.any
        (fun a => a.label == "A") = true ↔
      areaAocc.occupantsByID.filter (fun o => o != "p") ≠ []) ∧
    ((updatePlayerLocation [areaS4A] pS4
        { x := 0, y := 0, rotation := "front", moving := false,
          conversationLabel := none }).areas.any
        (fun a => a.label == "A") = true ↔
      areaS4A.occupantsByID.filter (fun o => o != "p1") ≠ []) := by
  constructor
  · exact occupancy_presence_after_eviction.1 townC9 sessTok pAct "A" areaAocc
      ⟨sessTok, by simp [townC9, town0], rfl⟩ rfl rfl rfl
  · exact occupancy_presence_after_eviction.2 [areaS4A] pS4
      { x := 0, y := 0, rotation := "front", moving := false,
        conversationLabel := none } "A" areaS4A rfl rfl rfl

theorem updatePlayerLocation_AB (areas : List ServerConversationArea)
    (p : Player) (loc : UserLocation) (la lb : String)
    (hprev : p.activeConversationArea = some la)
    (hnext : nextLabel areas loc = some lb) (hne : la ≠ lb) :
    updatePlayerLocation areas p loc =
      { player :=
          { p with location := loc, activeConversationArea := some lb },
        areas := (leaveArea (enterArea areas lb p.id).1 la p.id).1,
        events := (enterArea areas lb p.id).2 ++
          (leaveArea (enterArea areas lb p.id).1 la p.id).2 ++
          [TownEvent.playerMoved
             { p with location := loc, activeConversationArea := some lb }] }
      := by
  have hne2 : (la == lb) = false := beq_eq_false_iff_ne.mpr hne
  unfold updatePlayerLocation
  simp only [hprev, hnext, hne2, Bool.false_eq_true, if_false]

/-- C4: when a location update moves a player from existing area A to a
different existing area B, the player's id leaves A's occupant list and
is appended to B's, the player's active area becomes B, and the fan-out
is `conversationAreaUpdated(B)`, then `conversationAreaUpdated(A)` —
`conversationAreaDestroyed(A)` instead iff A became empty — and exactly
one `playerMoved(player)` last. -/
theorem updatePlayerLocation_transition (areas : List ServerConversationArea)
    (p : Player) (loc : UserLocation) (la lb : String)
    (A B : ServerConversationArea)
    (hprev : p.activeConversationArea = some la)
    (hloc : loc.conversationLabel = some lb)
    (hne : la ≠ lb)
    (hA : areas.find? (fun a => a.label == la) = some A)
    (hB : areas.find? (fun a => a.label == lb) = some B) :
    (updatePlayerLocation areas p loc).player =
      { p with location := loc, activeConversationArea := some lb } ∧
    (updatePlayerLocation areas p loc).areas.find?
        (fun a => a.label == lb) =
      some { B with occupantsByID := B.occupantsByID ++ [p.id] } ∧
    (A.occupantsByID.filter (fun o => o != p.id) ≠ [] →
      (updatePlayerLocation areas p loc).areas.find?
          (fun a => a.label == la) =
        some { A with occupantsByID :=
            A.occupantsByID.filter (fun o => o != p.id) } ∧
      (updatePlayerLocation areas p loc).events =
        [TownEvent.conversationAreaUpdated
           { B with occupantsByID := B.occupantsByID ++ [p.id] },
         TownEvent.conversationAreaUpdated
           { A with occupantsByID :=
               A.occupantsByID.filter (fun o => o != p.id) },
         TownEvent.playerMoved
           { p with location := loc, activeConversationArea := some lb }]) ∧
    (A.occupantsByID.filter (fun o => o != p.id) = [] →
      (updatePlayerLocation areas p loc).areas.any
          (fun a => a.label == la) = false ∧
      (updatePlayerLocation areas p loc).events =
        [TownEvent.conversationAreaUpdated
           { B with occupantsByID := B.occupantsByID ++ [p.id] },
         TownEvent.conversationAreaDestroyed
           { A with occupantsByID :=
               A.occupantsByID.filter (fun o => o != p.id) },
         TownEvent.playerMoved
           { p with location := loc, activeConversationArea := some lb }])
      := by
  have hAlbl : A.label = la := by simpa using List.find?_some hA
  have hBlbl : B.label = lb := by simpa using List.find?_some hB
  have hAneb : A.label ≠ lb := by rw [hAlbl]; exact hne
  have hany : areas.any (fun a => a.label == lb) = true :=
    List.any_eq_true.mpr ⟨B, List.mem_of_find?_eq_some hB,
      by simpa using List.find?_some hB⟩
  have hnext : nextLabel areas loc = some lb := by
    simp [nextLabel, hloc, hany]
  rw [updatePlayerLocation_AB areas p loc la lb hprev hnext hne]
  rw [enterArea_eq areas lb p.id B hB]
  have hA1 : (areas.map (addToArea lb p.id)).find?
      (fun a => a.label == la) = some A := by
    rw [find?_label_map (addToArea lb p.id) (label_addToArea lb p.id),
      hA, Option.map_some', addToArea_of_ne lb p.id A hAneb]
  have hB1 : (areas.map (addToArea lb p.id)).find?
      (fun a => a.label == lb) =
      some { B with occupantsByID := B.occupantsByID ++ [p.id] } := by
    rw [find?_label_map (addToArea lb p.id) (label_addToArea lb p.id),
      hB, Option.map_some']
    simp [addToArea, hBlbl]
  rw [leaveArea_eq _ la p.id A hA1]
  refine ⟨rfl, ?_, ?_, ?_⟩
  · by_cases he : (A.occupantsByID.filter (fun o => o != p.id)).isEmpty
    · rw [if_pos he]
      show ((((areas.map (addToArea lb p.id)).map
          (removeFromArea la p.id)).filter
          (fun b => b.label != la)).find? (fun a => a.label == lb)) = _
      rw [find?_filter_of_imp _ _ _
        (fun a haa => bne_iff_ne.mpr
          (fun hh => hne (hh.symm.trans (beq_iff_eq.mp haa))))]
      rw [find?_label_map (removeFromArea la p.id)
        (label_removeFromArea la p.id), hB1, Option.map_some',
        removeFromArea_of_ne la p.id
          { B with occupantsByID := B.occupantsByID ++ [p.id] }
          (fun hh => hne (hh.symm.trans hBlbl))]
    · rw [if_neg he]
      show (((areas.map (addToArea lb p.id)).map
          (removeFromArea la p.id)).find? (fun a => a.label == lb)) = _
      rw [find?_label_map (removeFromArea la p.id)
        (label_removeFromArea la p.id), hB1, Option.map_some',
        removeFromArea_of_ne la p.id
          { B with occupantsByID := B.occupantsByID ++ [p.id] }
          (fun hh => hne (hh.symm.trans hBlbl))]
  · intro hnonempty
    have he : ¬(A.occupantsByID.filter (fun o => o != p.id)).isEmpty = true :=
      fun h => hnonempty (List.isEmpty_iff.mp h)
    rw [if_neg he]
    constructor
    · show (((areas.map (addToArea lb p.id)).map
          (removeFromArea la p.id)).find? (fun a => a.label == la)) = _
      rw [find?_label_map (removeFromArea la p.id)
        (label_removeFromArea la p.id), hA1, Option.map_some']
      simp [removeFromArea, hAlbl]
    · rfl
  · intro hempty
    have he : (A.occupantsByID.filter (fun o => o != p.id)).isEmpty = true :=
      by simp [hempty]
    rw [if_pos he]
    constructor
    · refine Bool.eq_false_iff.mpr fun hany2 => ?_
      rcases List.any_eq_true.mp hany2 with ⟨x, hx, hxl⟩
      rcases List.mem_filter.mp hx with ⟨_, hxne⟩
      exact absurd (beq_iff_eq.mp hxl) (bne_iff_ne.mp hxne)
    · rfl

/-- C4 witness: moving "p1" from the doubly-occupied area "A" to the
empty area "B" yields occupants `A = ["p2"]`, `B = ["p1"]`, active area
B, and the event order updated(B), updated(A), playerMoved. -/
theorem updatePlayerLocation_transition_witness :
    (updatePlayerLocation [areaS4A, areaS4B] pS4 locS4).player =
      { pS4 with location := locS4, activeConversationArea := some "B" } ∧
    (updatePlayerLocation [areaS4A, areaS4B] pS4 locS4).areas.find?
        (fun a => a.label == "B") =
      some { areaS4B with occupantsByID := ["p1"] } ∧
    (updatePlayerLocation [areaS4A, areaS4B] pS4 locS4).events =
      [TownEvent.conversationAreaUpdated
         { areaS4B with occupantsByID := ["p1"] },
       TownEvent.conversationAreaUpdated
         { areaS4A with occupantsByID := ["p2"] },
       TownEvent.playerMoved
         { pS4 with location := locS4, activeConversationArea := some "B" }]
      := by
  have h := updatePlayerLocation_transition [areaS4A, areaS4B] pS4 locS4
    "A" "B" areaS4A areaS4B rfl rfl (by decide) rfl rfl
  have hocc : areaS4A.occupantsByID.filter (fun o => o != "p1") = ["p2"] :=
    by decide
  refine ⟨h.1, ?_, ?_⟩
  · simpa using h.2.1
  · have h3 := h.2.2.1 (by decide)
    simpa [hocc] using h3.2

end Covey
